import Mathlib

/-!
Shallow embedding of the lithops standalone control plane
(src/lithops/standalone/master_controller.py and
src/lithops/standalone/standalone.py) and proofs about it.

Time-valued quantities (time.time() readings, timeouts, sleep intervals) are
modelled as rationals; the checks inside polling loops are idealised as
instantaneous, so the k-th check of a loop that sleeps p seconds between
checks happens at elapsed time k * p.
-/

namespace LithopsStandalone

/-- Chunk generator iterchunks from master_controller.py (lines 151-154):
for i in range(0, len(lst), n): yield lst[i:i + n].
For n > 0, range(0, len(lst), n) enumerates the ceil(len(lst) / n) start
indices 0, n, 2n, ...; the slice lst[i:i + n] drops the first i elements and
takes the next n. For n = 0 Python raises ValueError; that case is mapped to
[] here and is excluded by the 0 < n hypotheses of the theorems below. -/
def iterchunks (lst : List α) (n : Nat) : List (List α) :=
  (List.range' 0 ((lst.length + n - 1) / n) n).map (fun i => (lst.drop i).take n)

/-- A backend instance handle as seen by StandaloneHandler (standalone.py).
deleteOnDismantle is the delete_on_dismantle attribute that init_keeper in
master_controller.py (line 144) sets to False exactly for the instance whose
name contains "master". stopRaises records whether the external stop() call
of the Instance-API collaborator raises for this instance. -/
structure FleetBackend where
  instanceId : String
  ipAddress : String
  deleteOnDismantle : Bool
  stopRaises : Bool
  deriving DecidableEq

/-- StandaloneHandler.dismantle (standalone.py lines 327-334): iterates
self.backends and calls backend.stop() on each element. The loop consults no
flag of the backend, and it has no per-element exception handling: when a
stop() raises, the loop aborts and the exception propagates to the caller.
The result is the list of backends on which stop() was issued, in order, and
whether an exception escaped. -/
def dismantle : List FleetBackend → List FleetBackend × Bool
  | [] => ([], false)
  | b :: rest =>
    if b.stopRaises then ([b], true)
    else
      let r := dismantle rest
      (b :: r.1, r.2)

/-- Number of readiness checks a poll-until-timeout loop performs:
the k-th check happens at elapsed time k * interval and runs while
k * interval < timeout, so there are ceil(timeout / interval) checks
(0 when the timeout is not positive). -/
def numPolls (timeout interval : ℚ) : Nat :=
  (⌈timeout / interval⌉).toNat

/-- Result of a readiness wait (_wait_backend_ready / _wait_proxy_ready in
standalone.py). On success the wait returns True. When no check succeeds
before the timeout, the code calls self.dismantle() and then raises; both
paths out of the timeout branch are exceptional, so the timeout outcome
carries the backends on which stop() was issued and whether the exception
that escaped came from a failing stop() (true) or is the readiness
exception itself (false). -/
inductive WaitOutcome where
  | ready
  | timeoutDismantled (stopsIssued : List FleetBackend) (stopRaised : Bool)
  deriving DecidableEq

/-- StandaloneHandler._wait_backend_ready (standalone.py lines 108-121):
polls _is_backend_ready every 5 seconds while elapsed < start_timeout;
on success returns True, otherwise calls self.dismantle() and raises.
ready k is the result of the k-th check. -/
def waitBackendReady (startTimeout : ℚ) (ready : Nat → Bool)
    (fleet : List FleetBackend) : WaitOutcome :=
  if (List.range (numPolls startTimeout 5)).any ready then WaitOutcome.ready
  else WaitOutcome.timeoutDismantled (dismantle fleet).1 (dismantle fleet).2

/-- StandaloneHandler._wait_proxy_ready (standalone.py lines 153-166): same
shape as _wait_backend_ready with a 2 second poll interval. -/
def waitProxyReady (startTimeout : ℚ) (ready : Nat → Bool)
    (fleet : List FleetBackend) : WaitOutcome :=
  if (List.range (numPolls startTimeout 2)).any ready then WaitOutcome.ready
  else WaitOutcome.timeoutDismantled (dismantle fleet).1 (dismantle fleet).2

/-- A value of the jobs registry of master_controller.py: jobs[job_key] is
the string "running" or "done". -/
inductive JobState where
  | running
  | done
  deriving DecidableEq

/-- The three configuration fields of StandaloneHandler that budget_keeper
reads (auto_dismantle, soft_dismantle_timeout, hard_dismantle_timeout). -/
structure KeeperConfig where
  autoDismantle : Bool
  softDismantleTimeout : ℚ
  hardDismantleTimeout : ℚ
  deriving DecidableEq

/-- The mutable state the budget_keeper loop carries across ticks: the local
jobs_running flag and the global last_usage_time. -/
structure KeeperState where
  jobsRunning : Bool
  lastUsageTime : ℚ
  deriving DecidableEq

/-- Python int() applied to a real value truncates toward zero. -/
def pyInt (q : ℚ) : ℤ :=
  if 0 ≤ q then ⌊q⌋ else ⌈q⌉

/-- The fully-idle condition of budget_keeper (master_controller.py lines
101-102): len(jobs) > 0 and all(value == done for value in jobs.values())
and standalone_handler.auto_dismantle. jobs is the list of registry values
after the per-tick refresh from the .done marker files. -/
def keeperIdle (cfg : KeeperConfig) (jobs : List JobState) : Bool :=
  !jobs.isEmpty && jobs.all (fun j => j == JobState.done) && cfg.autoDismantle

/-- What one iteration of the budget_keeper while-loop produces: the state
carried to the next tick, the computed time_to_dismantle (the tick invokes
standalone_handler.dismantle exactly when this is not positive, otherwise it
sleeps checkInterval seconds). -/
structure KeeperTickResult where
  state : KeeperState
  timeToDismantle : ℤ
  checkInterval : ℚ
  deriving DecidableEq

/-- One iteration of the budget_keeper loop (master_controller.py lines
94-124), taking the registry values jobs as refreshed at the start of the
tick and the current time now. On the idle branch, when jobs_running was
true it is cleared, last_usage_time is reset to now and the elapsed time is
recomputed (idealised to 0); time_to_dismantle is the int-truncated
soft_dismantle_timeout minus elapsed. Otherwise time_to_dismantle is the
int-truncated hard_dismantle_timeout minus elapsed and jobs_running is set.
check_interval is soft_dismantle_timeout / 10 in either branch. -/
def keeperTick (cfg : KeeperConfig) (jobs : List JobState) (now : ℚ)
    (s : KeeperState) : KeeperTickResult :=
  let timeSinceLastUsage := now - s.lastUsageTime
  let checkInterval := cfg.softDismantleTimeout / 10
  if keeperIdle cfg jobs then
    let s2 : KeeperState := if s.jobsRunning then ⟨false, now⟩ else s
    let timeSince2 : ℚ := if s.jobsRunning then 0 else timeSinceLastUsage
    ⟨s2, pyInt (cfg.softDismantleTimeout - timeSince2), checkInterval⟩
  else
    ⟨⟨true, s.lastUsageTime⟩,
      pyInt (cfg.hardDismantleTimeout - timeSinceLastUsage), checkInterval⟩

/-- Runs the budget_keeper loop tick by tick, with a fixed registry and with
time advancing by check_interval across the sleep between ticks, and returns
the time of the first tick that invokes dismantle (none when the fuel runs
out first). fuel only bounds the number of iterations inspected. -/
def keeperFirstDismantle (cfg : KeeperConfig) (jobs : List JobState) :
    KeeperState → ℚ → Nat → Option ℚ
  | _, _, 0 => none
  | s, now, fuel + 1 =>
    let r := keeperTick cfg jobs now s
    if 0 < r.timeToDismantle then
      keeperFirstDismantle cfg jobs r.state (now + r.checkInterval) fuel
    else
      some now

/-- Modelled from the spec: create_job_key (lithops.storage.utils, not under
src/) derives a deterministic job key from the executor id and the job id
("jobKey = deterministic string derived from (executorId, jobId)"). -/
def create_job_key (executorId jobId : String) : String :=
  executorId ++ "-" ++ jobId

/-- Python dict assignment d[k] = v on an insertion-ordered dictionary
represented as an association list: an existing key keeps its position and
gets the new value, a new key is appended. -/
def dictInsert (m : List (String × JobState)) (k : String) (v : JobState) :
    List (String × JobState) :=
  if m.any (fun p => p.1 == k) then
    m.map (fun p => if p.1 == k then (k, v) else p)
  else m ++ [(k, v)]

/-- The fields of a POST /run message body that the run handler of
master_controller.py reads: runtime_name, the three keys of
config.standalone it copies into the handler, executor_id and job_id. -/
structure RunMessage where
  runtimeName : String
  autoDismantle : Bool
  softDismantleTimeout : ℚ
  hardDismantleTimeout : ℚ
  executorId : String
  jobId : String
  deriving DecidableEq

/-- The shared controller state the run handler mutates: the global
last_usage_time, the three dismantle-related fields of standalone_handler,
and the jobs registry. -/
structure ControllerState where
  lastUsageTime : ℚ
  handler : KeeperConfig
  jobs : List (String × JobState)
  deriving DecidableEq

/-- The response of the run handler: a 404 error object or a 202 response
carrying the generated activation id. -/
inductive RunResponse where
  | err (status : Nat) (msg : String)
  | accepted (status : Nat) (activationId : String)
  deriving DecidableEq

/-- The run handler of master_controller.py (lines 294-333).
verifyRuntimeName stands for verify_runtime_name (lithops.utils, not under
src/; modelled from the spec: malformed or invalid requests return a
structured error). On success the handler sets last_usage_time = now,
overwrites the three dismantle fields of standalone_handler from
message[config][standalone], registers jobs[job_key] = running, delegates to
the localhost handler (external collaborator) and answers 202 with the
generated activation id actId. -/
def runEndpoint (verifyRuntimeName : String → Bool) (now : ℚ) (actId : String)
    (msg : RunMessage) (st : ControllerState) : ControllerState × RunResponse :=
  if !verifyRuntimeName msg.runtimeName then
    (st, RunResponse.err 404 "invalid runtime name")
  else
    (⟨now,
      ⟨msg.autoDismantle, msg.softDismantleTimeout, msg.hardDismantleTimeout⟩,
      dictInsert st.jobs (create_job_key msg.executorId msg.jobId)
        JobState.running⟩,
     RunResponse.accepted 202 actId)

/-- The provided_backed flag computed by StandaloneHandler.__init__
(standalone.py lines 83-91): true exactly when exec_mode is not "create"
and the configured backend reports both an IP address and an instance id
that are not None; only then is the pre-bound backend appended to
self.backends at construction. -/
def provided_backed (execMode : String) (ipAddress instanceId : Option String) :
    Bool :=
  execMode != "create" && ipAddress.isSome && instanceId.isSome

/-- Python "{:05d}".format(i): the decimal digits of i left-padded with
zeros to width 5 (standalone.py line 233). -/
def fmtCallId (i : Nat) : String :=
  let s := toString i
  String.mk (List.replicate (5 - s.length) '0') ++ s

/-- What StandaloneHandler.run_job (standalone.py lines 219-234) does:
either one direct _single_invoke on backends[0] whose activation id is
returned, or one _thread_invoke per generated call id (each _thread_invoke
calls self.create, provisioning one fresh worker for its single call), with
the method returning None. -/
inductive RunJobOutcome where
  | singleInvoke (activationId : String)
  | threadInvokes (callIds : List String)
  deriving DecidableEq

/-- StandaloneHandler.run_job: if self.provided_backed, return
_single_invoke(backends[0], payload), whose value is the activation id of
the response; otherwise submit _thread_invoke for call ids
"{:05d}".format(i) for i in range(total_calls) and fall through (returning
None). actId is the activation id the single invocation would return. -/
def run_job_outcome (providedBacked : Bool) (totalCalls : Nat)
    (actId : String) : RunJobOutcome :=
  if providedBacked then RunJobOutcome.singleInvoke actId
  else RunJobOutcome.threadInvokes ((List.range totalCalls).map fmtCallId)

/-- run_job_on_worker (master_controller.py lines 241-243): the payload
rewrite job_payload[data_byte_ranges] = [dbr[int(call_id)] for call_id in
call_ids_range]. Call ids are modelled by their integer value int(call_id);
an out-of-range id, an IndexError in Python, gives none. -/
def sliceDataByteRanges (dbr : List α) (callIdsRange : List Nat) :
    Option (List α) :=
  callIdsRange.mapM (fun c => dbr[c]?)

/-- The dispatch loop of run_job in create mode (master_controller.py lines
273-279): for each chunk of call ids, pop the next worker from the front of
the workers list and submit run_job_on_worker with a deep copy of the
payload, whose call_ids become the chunk and whose data_byte_ranges become
the slice for the chunk. Exhausting the workers list (an IndexError from
workers.pop(0)) or an out-of-range call id gives none. -/
def assignChunks : List (List Nat) → List W → List α →
    Option (List (W × List Nat × List α))
  | [], _, _ => some []
  | _ :: _, [], _ => none
  | c :: cs, w :: ws, dbr =>
    match sliceDataByteRanges dbr c, assignChunks cs ws dbr with
    | some s, some rest => some ((w, c, s) :: rest)
    | _, _ => none

/-- run_job in create mode (master_controller.py lines 267-279): partition
call_ids with iterchunks and dispatch each chunk to one worker. The result
lists, per dispatched chunk in order, the worker, the call_ids of its
payload and the data_byte_ranges of its payload. -/
def run_job_create (callIds : List Nat) (chunksize : Nat) (workers : List W)
    (dbr : List α) : Option (List (W × List Nat × List α)) :=
  assignChunks (iterchunks callIds chunksize) workers dbr

/-- An untyped Python configuration value as it can appear under
disable_log_monitoring: a boolean or a string. -/
inductive PyValue where
  | pyBool (b : Bool)
  | pyStr (s : String)
  deriving DecidableEq

/-- Python equality between two such values: a boolean never compares equal
to a string (False == "False" is False in Python); two strings or two
booleans compare equal exactly when they are equal. -/
def pyEq : PyValue → PyValue → Bool
  | PyValue.pyBool a, PyValue.pyBool b => a == b
  | PyValue.pyStr a, PyValue.pyStr b => a == b
  | _, _ => false

/-- standalone.py line 249: _single_invoke calls _start_log_monitor iff
self.disable_log_monitoring == "False", a comparison against the string
literal. The configured value defaults to the boolean False (line 67). -/
def singleInvokeCallsLogMonitor (disableLogMonitoring : PyValue) : Bool :=
  pyEq disableLogMonitoring (PyValue.pyStr "False")

/-- _start_log_monitor (standalone.py lines 208-211) starts the monitor
thread only when the handler is not itself running inside a lithops worker,
so the monitor is started iff _single_invoke reaches the call and that
guard passes. -/
def logMonitorStarted (isLithopsWorker : Bool)
    (disableLogMonitoring : PyValue) : Bool :=
  singleInvokeCallsLogMonitor disableLogMonitoring && !isLithopsWorker

/-! ## Lemmas about iterchunks -/

theorem range'_add_left (k s t step : Nat) :
    List.range' (s + t) k step = (List.range' s k step).map (· + t) := by
  induction k generalizing s with
  | zero => rfl
  | succ m ih =>
    rw [List.range'_succ, List.range'_succ, List.map_cons,
        show s + t + step = s + step + t from by omega, ih (s + step)]

theorem iterchunks_nil (n : Nat) : iterchunks ([] : List α) n = [] := by
  have h0 : (n - 1) / n = 0 := by
    rcases Nat.eq_zero_or_pos n with rfl | h
    · rfl
    · exact Nat.div_eq_of_lt (by omega)
  simp [iterchunks, h0]

/-- The generator form of iterchunks: on a nonempty list with positive
chunk size it yields the first n elements, then the chunks of the rest. -/
theorem iterchunks_cons (lst : List α) (n : Nat) (hl : lst ≠ [])
    (hn : 0 < n) :
    iterchunks lst n = lst.take n :: iterchunks (lst.drop n) n := by
  have hL : 0 < lst.length := List.length_pos.mpr hl
  have hm : (lst.length + n - 1) / n = (lst.length - 1) / n + 1 := by
    rw [show lst.length + n - 1 = (lst.length - 1) + n from by omega,
        Nat.add_div_right _ hn]
  have hk : ((lst.drop n).length + n - 1) / n = (lst.length - 1) / n := by
    rw [List.length_drop]
    rcases le_or_lt n lst.length with h | h
    · rw [show lst.length - n + n - 1 = lst.length - 1 from by omega]
    · rw [show lst.length - n = 0 from by omega]
      rw [Nat.div_eq_of_lt (by omega), Nat.div_eq_of_lt (by omega)]
  unfold iterchunks
  rw [hm, hk, List.range'_succ, List.map_cons, range'_add_left _ 0 n n,
      List.map_map]
  simp only [List.cons.injEq, List.drop_zero, List.map_inj_left,
    Function.comp_apply, true_and]
  intro a _
  rw [List.drop_drop, Nat.add_comm a n]

theorem iterchunks_join (lst : List α) (n : Nat) (hn : 0 < n) :
    (iterchunks lst n).flatten = lst := by
  rcases eq_or_ne lst [] with rfl | hne
  · rw [iterchunks_nil]; rfl
  · rw [iterchunks_cons lst n hne hn, List.flatten_cons,
        iterchunks_join (lst.drop n) n hn, List.take_append_drop]
termination_by lst.length
decreasing_by
  have := List.length_pos.mpr hne
  simp only [List.length_drop]
  omega

theorem iterchunks_dropLast (lst : List α) (n : Nat) (hn : 0 < n) :
    ∀ c ∈ (iterchunks lst n).dropLast, c.length = n := by
  rcases eq_or_ne lst [] with rfl | hne
  · rw [iterchunks_nil]; intro c hc; simp at hc
  · rw [iterchunks_cons lst n hne hn]
    rcases eq_or_ne (lst.drop n) [] with hd | hd
    · rw [hd, iterchunks_nil]
      intro c hc; simp at hc
    · have hlen : n < lst.length := by
        by_contra h
        exact hd (List.drop_eq_nil_of_le (by omega))
      rcases hI : iterchunks (lst.drop n) n with _ | ⟨c0, cs⟩
      · intro c hc; simp at hc
      · rw [List.dropLast_cons₂]
        intro c hc
        rcases List.mem_cons.mp hc with rfl | hc2
        · rw [List.length_take]; omega
        · have hrec := iterchunks_dropLast (lst.drop n) n hn
          rw [hI] at hrec
          exact hrec c hc2
termination_by lst.length
decreasing_by
  have := List.length_pos.mpr hne
  simp only [List.length_drop]
  omega

theorem iterchunks_length (lst : List α) (n : Nat) :
    (iterchunks lst n).length = (lst.length + n - 1) / n := by
  simp [iterchunks]

theorem iterchunks_getElem (lst : List α) (n : Nat) (i : Nat)
    (hi : i < (iterchunks lst n).length) :
    (iterchunks lst n)[i] = (lst.drop (n * i)).take n := by
  unfold iterchunks at hi ⊢
  simp [List.getElem_map, List.getElem_range']

/-- Claim C1: for every call-id sequence and every chunk size C greater than
0, iterchunks yields exactly ceil(L / C) chunks (written (L + C - 1) / C in
natural division), concatenating the chunks reproduces the original
sequence, every chunk except possibly the last has size exactly C, and the
i-th chunk is exactly the contiguous slice of the input starting at
position C * i — which also makes the chunk-to-call assignment deterministic
in the input sequence and the chunk size. -/
theorem iterchunks_partition_spec (lst : List α) (n : Nat) (hn : 0 < n) :
    (iterchunks lst n).length = (lst.length + n - 1) / n ∧
    (iterchunks lst n).flatten = lst ∧
    (∀ c ∈ (iterchunks lst n).dropLast, c.length = n) ∧
    ∀ i (hi : i < (iterchunks lst n).length),
      (iterchunks lst n)[i] = (lst.drop (n * i)).take n :=
  ⟨iterchunks_length lst n, iterchunks_join lst n hn,
   iterchunks_dropLast lst n hn,
   fun i hi => iterchunks_getElem lst n i hi⟩

/-- Witness for C1: the partition of a concrete 5-element sequence into
chunks of size 2. -/
theorem iterchunks_partition_spec_witness :
    0 < 2 ∧
    ((iterchunks [0, 1, 2, 3, 4] 2).length =
        ([0, 1, 2, 3, 4].length + 2 - 1) / 2 ∧
      (iterchunks [0, 1, 2, 3, 4] 2).flatten = [0, 1, 2, 3, 4] ∧
      (∀ c ∈ (iterchunks [0, 1, 2, 3, 4] 2).dropLast, c.length = 2) ∧
      ∀ i (hi : i < (iterchunks [0, 1, 2, 3, 4] 2).length),
        (iterchunks [0, 1, 2, 3, 4] 2)[i] = ([0, 1, 2, 3, 4].drop (2 * i)).take 2) :=
  ⟨by decide, iterchunks_partition_spec [0, 1, 2, 3, 4] 2 (by decide)⟩

/-! ## Lemmas about dismantle and the readiness waits -/

/-- Claim C2 (evaluation at the failing input): a fleet holding a worker and
the master instance, whose deleteOnDismantle attribute init_keeper set to
false; dismantle issues stop() on both, the master included — the
deleteOnDismantle flag is never consulted by the loop. -/
theorem dismantle_ignores_deleteOnDismantle :
    (dismantle [⟨"i-worker", "10.0.0.2", true, false⟩,
                ⟨"i-master", "10.0.0.1", false, false⟩]).1 =
      [⟨"i-worker", "10.0.0.2", true, false⟩,
       ⟨"i-master", "10.0.0.1", false, false⟩] ∧
    (⟨"i-master", "10.0.0.1", false, false⟩ : FleetBackend).deleteOnDismantle
      = false := by
  decide

/-- Claim C7 counterexample: when stopping the first instance raises, the
second instance is never stopped — the loop aborts instead of continuing
best-effort. -/
theorem dismantle_failure_counterexample :
    dismantle [⟨"i-1", "10.0.0.11", true, true⟩,
               ⟨"i-2", "10.0.0.12", true, false⟩] =
      ([⟨"i-1", "10.0.0.11", true, true⟩], true) ∧
    (⟨"i-2", "10.0.0.12", true, false⟩ : FleetBackend) ∉
      (dismantle [⟨"i-1", "10.0.0.11", true, true⟩,
                  ⟨"i-2", "10.0.0.12", true, false⟩]).1 := by
  decide

/-- Claim C7 (amended): dismantle stops instances in fleet order only up to
and including the first instance whose stop() raises; the instances after it
are not stopped, and the exception escapes to the caller (the budget keeper
loop catches and logs it). -/
theorem dismantle_aborts_on_first_failure (pre : List FleetBackend)
    (b : FleetBackend) (post : List FleetBackend)
    (hpre : ∀ x ∈ pre, x.stopRaises = false) (hb : b.stopRaises = true) :
    dismantle (pre ++ b :: post) = (pre ++ [b], true) := by
  revert hpre
  induction pre with
  | nil => intro _; simp [dismantle, hb]
  | cons x xs ih =>
    intro hpre
    have hx : x.stopRaises = false := hpre x (List.mem_cons_self x xs)
    have hxs := ih (fun y hy => hpre y (List.mem_cons_of_mem x hy))
    simp [dismantle, hx, hxs]

/-- Witness for C7: a three-instance fleet whose middle stop raises; only
the first two get a stop issued. -/
theorem dismantle_aborts_on_first_failure_witness :
    dismantle [⟨"i-a", "10.0.0.3", true, false⟩,
               ⟨"i-b", "10.0.0.4", true, true⟩,
               ⟨"i-c", "10.0.0.5", true, false⟩] =
      ([⟨"i-a", "10.0.0.3", true, false⟩, ⟨"i-b", "10.0.0.4", true, true⟩],
       true) := by
  have h := dismantle_aborts_on_first_failure
    [⟨"i-a", "10.0.0.3", true, false⟩] ⟨"i-b", "10.0.0.4", true, true⟩
    [⟨"i-c", "10.0.0.5", true, false⟩] (by decide) (by decide)
  simpa using h

theorem dismantle_no_raise (bs : List FleetBackend)
    (h : ∀ b ∈ bs, b.stopRaises = false) : dismantle bs = (bs, false) := by
  revert h
  induction bs with
  | nil => intro _; rfl
  | cons b rest ih =>
    intro h
    have hb : b.stopRaises = false := h b (List.mem_cons_self b rest)
    have hrest := ih (fun y hy => h y (List.mem_cons_of_mem b hy))
    simp [dismantle, hb, hrest]

/-- Claim C3 counterexample: with a second backend registered in the fleet,
the readiness timeout path stops every backend of the fleet, not only the
awaited unreachable instance (the one appended last). -/
theorem wait_ready_timeout_counterexample :
    waitBackendReady 10 (fun _ => false)
        [⟨"i-other", "10.0.1.3", true, false⟩,
         ⟨"i-awaited", "10.0.1.4", true, false⟩] =
      WaitOutcome.timeoutDismantled
        [⟨"i-other", "10.0.1.3", true, false⟩,
         ⟨"i-awaited", "10.0.1.4", true, false⟩] false ∧
    (⟨"i-other", "10.0.1.3", true, false⟩ : FleetBackend) ≠
      ⟨"i-awaited", "10.0.1.4", true, false⟩ := by
  constructor
  · simp [waitBackendReady, dismantle]
  · decide

/-- Claim C3 (amended): when no readiness check succeeds within the
timeout, both waits issue a stop on every backend of the fleet — which
includes the awaited instance, since create appends it to self.backends
before starting the waits — and then raise; the wait returns through the
exceptional path, so the same instance is not retried. -/
theorem wait_ready_timeout_dismantles_fleet (t : ℚ) (ready : Nat → Bool)
    (fleet : List FleetBackend)
    (hready : ∀ k, ready k = false)
    (hstop : ∀ b ∈ fleet, b.stopRaises = false) :
    waitBackendReady t ready fleet =
      WaitOutcome.timeoutDismantled fleet false ∧
    waitProxyReady t ready fleet =
      WaitOutcome.timeoutDismantled fleet false := by
  have hd := dismantle_no_raise fleet hstop
  have hany : ∀ m : Nat, (List.range m).any ready = false := by
    intro m
    cases h : (List.range m).any ready with
    | false => rfl
    | true =>
      obtain ⟨k, -, hk⟩ := List.any_eq_true.mp h
      rw [hready k] at hk
      cases hk
  constructor <;> simp [waitBackendReady, waitProxyReady, hany, hd]

/-! ## Lemmas about the budget keeper -/

theorem pyInt_nonpos_iff (q : ℚ) : pyInt q ≤ 0 ↔ q < 1 := by
  unfold pyInt
  split
  · rename_i h
    constructor
    · intro hf
      by_contra hq
      push_neg at hq
      have h1 : (1 : ℤ) ≤ ⌊q⌋ := Int.le_floor.mpr (by exact_mod_cast hq)
      omega
    · intro hq
      by_contra hf
      push_neg at hf
      have h1 : ((1 : ℤ) : ℚ) ≤ q := Int.le_floor.mp (by omega)
      rw [Int.cast_one] at h1
      linarith
  · rename_i h
    push_neg at h
    constructor
    · intro _
      linarith
    · intro _
      refine Int.ceil_le.mpr ?_
      push_cast
      linarith

theorem keeperIdle_eq_true (cfg : KeeperConfig) (jobs : List JobState)
    (h1 : jobs ≠ []) (h2 : ∀ j ∈ jobs, j = JobState.done)
    (h3 : cfg.autoDismantle = true) : keeperIdle cfg jobs = true := by
  simp [keeperIdle, List.isEmpty_iff, List.all_eq_true, beq_iff_eq, h1, h3]
  exact h2

/-- Claim C4 (amended): on the first budget-keeper tick that observes the
fully-idle condition (registry non-empty, every job Done, autoDismantle on)
while jobs_running is still set from a previous non-idle tick, the state is
reset: jobs_running is cleared and lastUsageTime becomes the current time.
On the following idle ticks the loop invokes dismantle exactly when
softDismantleTimeout - (now - lastUsageTime) < 1 — not when the remaining
time reaches 0 — because the code truncates the remaining time with int()
and fires on a non-positive result. Dismantle is therefore invoked within
softDismantleTimeout of the reset but can fire up to (strictly less than)
one second earlier. With softDismantleTimeout = 10 and ticks spaced at the
check interval of 1 second, the first dismantle happens exactly 10 seconds
after the reset, as the trace conjunct shows (the reset happens on the
first tick, at time 0). -/
theorem keeper_soft_timing_spec :
    (∀ (cfg : KeeperConfig) (jobs : List JobState) (now : ℚ)
        (s : KeeperState),
      jobs ≠ [] → (∀ j ∈ jobs, j = JobState.done) →
      cfg.autoDismantle = true → s.jobsRunning = true →
      (keeperTick cfg jobs now s).state = ⟨false, now⟩) ∧
    (∀ (cfg : KeeperConfig) (jobs : List JobState) (now : ℚ)
        (s : KeeperState),
      jobs ≠ [] → (∀ j ∈ jobs, j = JobState.done) →
      cfg.autoDismantle = true → s.jobsRunning = false →
      ((keeperTick cfg jobs now s).timeToDismantle ≤ 0 ↔
        cfg.softDismantleTimeout - (now - s.lastUsageTime) < 1)) ∧
    keeperFirstDismantle ⟨true, 10, 300⟩ [JobState.done] ⟨true, -100⟩ 0 13 =
      some 10 := by
  refine ⟨?_, ?_, ?_⟩
  · intro cfg jobs now s h1 h2 h3 h4
    have hidle := keeperIdle_eq_true cfg jobs h1 h2 h3
    simp [keeperTick, hidle, h4]
  · intro cfg jobs now s h1 h2 h3 h4
    have hidle := keeperIdle_eq_true cfg jobs h1 h2 h3
    simp [keeperTick, hidle, h4, pyInt_nonpos_iff]
  · norm_num [keeperFirstDismantle, keeperTick, keeperIdle, pyInt, beq_iff_eq]

/-- Claim C4 counterexample: a run with softDismantleTimeout = 5. The first
tick (time 0) observes the fully-idle condition after a non-idle phase and
resets lastUsageTime to 0; the loop then ticks every 0.5 seconds (the check
interval 5 / 10) and invokes dismantle at time 4.5, which is strictly
earlier than softDismantleTimeout = 5 seconds after the reset, because
int(5 - 4.5) = 0 is already non-positive. -/
theorem keeper_soft_counterexample :
    keeperFirstDismantle ⟨true, 5, 300⟩ [JobState.done] ⟨true, -100⟩ 0 12 =
      some (9 / 2) ∧ (9 / 2 : ℚ) < 5 := by
  constructor
  · norm_num [keeperFirstDismantle, keeperTick, keeperIdle, pyInt, beq_iff_eq]
  · norm_num

/-- Claim C5 (amended): a tick on which the fully-idle condition fails —
in particular whenever autoDismantle is false, or some registered job is
still Running — invokes dismantle exactly when
hardDismantleTimeout - (now - lastUsageTime) < 1 (int truncation of the
remaining time, as for the soft path). Dismantle therefore fires on the
first tick after the elapsed time exceeds hardDismantleTimeout - 1; since
ticks are spaced softDismantleTimeout / 10 apart, that moment can also
exceed hardDismantleTimeout by up to one check interval, so the hard
timeout bounds the uptime only up to the tick granularity. With
autoDismantle = false, hardDismantleTimeout = 30 and
softDismantleTimeout = 10, dismantle fires at exactly 30 seconds, as the
trace conjunct shows. -/
theorem keeper_hard_timing_spec :
    (∀ (cfg : KeeperConfig) (jobs : List JobState) (now : ℚ)
        (s : KeeperState),
      keeperIdle cfg jobs = false →
      ((keeperTick cfg jobs now s).timeToDismantle ≤ 0 ↔
        cfg.hardDismantleTimeout - (now - s.lastUsageTime) < 1)) ∧
    (∀ (cfg : KeeperConfig) (jobs : List JobState),
      cfg.autoDismantle = false → keeperIdle cfg jobs = false) ∧
    (∀ (cfg : KeeperConfig) (jobs : List JobState),
      JobState.running ∈ jobs → keeperIdle cfg jobs = false) ∧
    keeperFirstDismantle ⟨false, 10, 30⟩ [JobState.running] ⟨false, 0⟩ 0 35 =
      some 30 := by
  refine ⟨?_, ?_, ?_, ?_⟩
  · intro cfg jobs now s h
    simp [keeperTick, h, pyInt_nonpos_iff]
  · intro cfg jobs h
    simp [keeperIdle, h]
  · intro cfg jobs hmem
    have hall : jobs.all (fun j => j == JobState.done) = false := by
      cases h : jobs.all (fun j => j == JobState.done) with
      | false => rfl
      | true =>
        have hx := List.all_eq_true.mp h JobState.running hmem
        simp [beq_iff_eq] at hx
    simp [keeperIdle, hall]
  · norm_num [keeperFirstDismantle, keeperTick, keeperIdle, pyInt, beq_iff_eq]

/-- Claim C5 counterexample: autoDismantle = false,
hardDismantleTimeout = 30, softDismantleTimeout = 40. The keeper ticks
every 4 seconds (40 / 10) from boot at time 0 and first invokes dismantle
at time 32, which is after — not at — 30 seconds of continuous uptime, so
the hard timeout does not bound the uptime by hardDismantleTimeout. -/
theorem keeper_hard_counterexample :
    keeperFirstDismantle ⟨false, 40, 30⟩ [JobState.running] ⟨false, 0⟩ 0 12 =
      some 32 ∧ (30 : ℚ) < 32 := by
  constructor
  · norm_num [keeperFirstDismantle, keeperTick, keeperIdle, pyInt, beq_iff_eq]
  · norm_num

/-- Witness for C3: a one-instance fleet and a probe that never succeeds. -/
theorem wait_ready_timeout_dismantles_fleet_witness :
    waitBackendReady 10 (fun _ => false) [⟨"i-w", "10.0.1.2", true, false⟩] =
      WaitOutcome.timeoutDismantled [⟨"i-w", "10.0.1.2", true, false⟩] false ∧
    waitProxyReady 10 (fun _ => false) [⟨"i-w", "10.0.1.2", true, false⟩] =
      WaitOutcome.timeoutDismantled [⟨"i-w", "10.0.1.2", true, false⟩] false :=
  wait_ready_timeout_dismantles_fleet 10 (fun _ => false)
    [⟨"i-w", "10.0.1.2", true, false⟩] (fun _ => rfl) (by decide)

/-! ## The run endpoint, run_job and the log monitor -/

/-- Claim C8: every accepted POST /run submission sets last_usage_time to
the current time and replaces auto_dismantle, soft_dismantle_timeout and
hard_dismantle_timeout of the shared handler with the values of the
config.standalone section of the submitted message, registering the job as
running and answering 202 with the generated activation id — the resulting
state does not depend on the boot-time handler configuration. -/
theorem run_endpoint_overwrites_config (verifyRuntimeName : String → Bool)
    (now : ℚ) (actId : String) (msg : RunMessage) (st : ControllerState)
    (h : verifyRuntimeName msg.runtimeName = true) :
    (runEndpoint verifyRuntimeName now actId msg st).1 =
      ⟨now,
       ⟨msg.autoDismantle, msg.softDismantleTimeout,
        msg.hardDismantleTimeout⟩,
       dictInsert st.jobs (create_job_key msg.executorId msg.jobId)
         JobState.running⟩ ∧
    (runEndpoint verifyRuntimeName now actId msg st).2 =
      RunResponse.accepted 202 actId := by
  constructor <;> simp [runEndpoint, h]

/-- Witness for C8: a concrete accepted submission against a handler booted
with a different configuration. -/
theorem run_endpoint_overwrites_config_witness :
    (fun _ : String => true) "python3" = true ∧
    (runEndpoint (fun _ => true) 42 "act-1"
        ⟨"python3", false, 7, 19, "e1", "j1"⟩
        ⟨0, ⟨true, 10, 300⟩, []⟩).1 =
      ⟨42, ⟨false, 7, 19⟩, [("e1-j1", JobState.running)]⟩ ∧
    (runEndpoint (fun _ => true) 42 "act-1"
        ⟨"python3", false, 7, 19, "e1", "j1"⟩
        ⟨0, ⟨true, 10, 300⟩, []⟩).2 =
      RunResponse.accepted 202 "act-1" := by
  obtain ⟨h1, h2⟩ := run_endpoint_overwrites_config (fun _ => true) 42
    "act-1" ⟨"python3", false, 7, 19, "e1", "j1"⟩
    ⟨0, ⟨true, 10, 300⟩, []⟩ rfl
  refine ⟨rfl, ?_, h2⟩
  rw [h1]
  rfl

/-- Claim C9: StandaloneHandler.run_job performs the direct single
invocation (returning the activation id) iff provided_backed is set, which
holds iff exec_mode is not "create" and both the IP address and the
instance id of the configured backend are not None; otherwise it submits
one _thread_invoke per generated call id — total_calls of them, one fresh
worker each — and returns no activation id. -/
theorem run_job_mode_spec (execMode : String) (ip iid : Option String)
    (totalCalls : Nat) (actId : String) :
    (provided_backed execMode ip iid = true ↔
      execMode ≠ "create" ∧ ip ≠ none ∧ iid ≠ none) ∧
    (run_job_outcome (provided_backed execMode ip iid) totalCalls actId =
        RunJobOutcome.singleInvoke actId ↔
      provided_backed execMode ip iid = true) ∧
    (provided_backed execMode ip iid = false →
      run_job_outcome (provided_backed execMode ip iid) totalCalls actId =
          RunJobOutcome.threadInvokes
            ((List.range totalCalls).map fmtCallId) ∧
        ((List.range totalCalls).map fmtCallId).length = totalCalls) := by
  refine ⟨?_, ?_, ?_⟩
  · simp [provided_backed, Bool.and_eq_true, bne_iff_ne,
      Option.isSome_iff_ne_none, and_assoc]
  · cases h : provided_backed execMode ip iid <;> simp [run_job_outcome, h]
  · intro h
    simp [run_job_outcome, h]

/-- Witness for C9: exec_mode = "create" forces the fan-out path with one
call id per call. -/
theorem run_job_mode_spec_witness :
    provided_backed "create" (some "10.0.0.5") (some "i-123") = false ∧
    run_job_outcome (provided_backed "create" (some "10.0.0.5")
        (some "i-123")) 3 "act-9" =
      RunJobOutcome.threadInvokes ((List.range 3).map fmtCallId) ∧
    ((List.range 3).map fmtCallId).length = 3 :=
  ⟨by decide,
   (run_job_mode_spec "create" (some "10.0.0.5") (some "i-123") 3
      "act-9").2.2 (by decide)⟩

theorem slice_eq_map (dbr : List α) (dfl : α) :
    ∀ ids : List Nat, (∀ c ∈ ids, c < dbr.length) →
      sliceDataByteRanges dbr ids =
        some (ids.map (fun c => dbr.getD c dfl)) := by
  intro ids
  induction ids with
  | nil => intro _; rfl
  | cons c cs ih =>
    intro h
    have hc : c < dbr.length := h c (List.mem_cons_self c cs)
    have hcs := ih (fun x hx => h x (List.mem_cons_of_mem c hx))
    simp only [sliceDataByteRanges] at hcs ⊢
    rw [List.mapM_cons, List.getElem?_eq_getElem hc, hcs]
    simp [List.getD_eq_getElem?_getD, List.getElem?_eq_getElem hc]

theorem assignChunks_spec {W α : Type} (dbr : List α) (dfl : α) :
    ∀ (chunks : List (List Nat)) (workers : List W),
      (∀ c ∈ chunks, ∀ i ∈ c, i < dbr.length) →
      chunks.length ≤ workers.length →
      ∃ a, assignChunks chunks workers dbr = some a ∧
        a.map (fun p => p.2.1) = chunks ∧
        a.map (fun p => p.1) = workers.take chunks.length ∧
        ∀ p ∈ a, p.2.2 = p.2.1.map (fun c => dbr.getD c dfl) := by
  intro chunks
  induction chunks with
  | nil =>
    intro workers _ _
    exact ⟨[], rfl, rfl, by simp, by simp⟩
  | cons c cs ih =>
    intro workers hin hlen
    cases workers with
    | nil => simp at hlen
    | cons w ws =>
      obtain ⟨a, ha, h1, h2, h3⟩ :=
        ih ws (fun x hx => hin x (List.mem_cons_of_mem c hx))
          (by simpa using hlen)
      have hs := slice_eq_map dbr dfl c (hin c (List.mem_cons_self c cs))
      refine ⟨(w, c, c.map (fun i => dbr.getD i dfl)) :: a, ?_, ?_, ?_, ?_⟩
      · simp [assignChunks, hs, ha]
      · simp [h1]
      · simp [List.take_succ_cons, h2]
      · intro p hp
        rcases List.mem_cons.mp hp with rfl | hp2
        · rfl
        · exact h3 p hp2

/-- Claim C6: in create mode, each chunk of call ids is dispatched to
exactly one worker (the chunks in order take the workers from the front of
the workers list), the payload of that worker carries exactly that chunk as
its call_ids, and its data_byte_ranges are exactly the entries of the
original list selected by the call ids of the chunk, in chunk order. -/
theorem run_job_create_spec {W α : Type} (callIds : List Nat)
    (chunksize : Nat) (workers : List W) (dbr : List α) (dfl : α)
    (hn : 0 < chunksize)
    (hids : ∀ c ∈ callIds, c < dbr.length)
    (hw : (iterchunks callIds chunksize).length ≤ workers.length) :
    ∃ a, run_job_create callIds chunksize workers dbr = some a ∧
      a.map (fun p => p.2.1) = iterchunks callIds chunksize ∧
      a.map (fun p => p.1) =
        workers.take (iterchunks callIds chunksize).length ∧
      ∀ p ∈ a, p.2.2 = p.2.1.map (fun c => dbr.getD c dfl) := by
  have hin : ∀ c ∈ iterchunks callIds chunksize, ∀ i ∈ c, i < dbr.length := by
    intro c hc i hi
    refine hids i ?_
    have hmem : i ∈ (iterchunks callIds chunksize).flatten :=
      List.mem_flatten.mpr ⟨c, hc, hi⟩
    rwa [iterchunks_join callIds chunksize hn] at hmem
  exact assignChunks_spec dbr dfl (iterchunks callIds chunksize) workers
    hin hw

/-- Witness for C6: totalCalls = 10 and chunkSize = 4 give three chunks of
sizes 4, 4 and 2, one worker per chunk, each payload holding only its own
slice of the data byte ranges. -/
theorem run_job_create_spec_witness :
    (0 < 4 ∧
      (∀ c ∈ [0, 1, 2, 3, 4, 5, 6, 7, 8, 9],
        c < [100, 101, 102, 103, 104, 105, 106, 107, 108, 109].length) ∧
      (iterchunks [0, 1, 2, 3, 4, 5, 6, 7, 8, 9] 4).length ≤
        (["w0", "w1", "w2"] : List String).length) ∧
    ∃ a, run_job_create [0, 1, 2, 3, 4, 5, 6, 7, 8, 9] 4 ["w0", "w1", "w2"]
        [100, 101, 102, 103, 104, 105, 106, 107, 108, 109] = some a ∧
      a.map (fun p => p.2.1) = iterchunks [0, 1, 2, 3, 4, 5, 6, 7, 8, 9] 4 ∧
      a.map (fun p => p.1) =
        (["w0", "w1", "w2"] : List String).take
          (iterchunks [0, 1, 2, 3, 4, 5, 6, 7, 8, 9] 4).length ∧
      ∀ p ∈ a, p.2.2 = p.2.1.map
        (fun c => [100, 101, 102, 103, 104, 105, 106, 107, 108, 109].getD c 0) :=
  ⟨⟨by decide, by decide, by decide⟩,
   run_job_create_spec [0, 1, 2, 3, 4, 5, 6, 7, 8, 9] 4 ["w0", "w1", "w2"]
     [100, 101, 102, 103, 104, 105, 106, 107, 108, 109] 0 (by decide)
     (by decide) (by decide)⟩

/-- Claim C10 counterexample: inside a lithops worker
(is_lithops_worker = true) with disable_log_monitoring set to the string
"False", the configured value does compare equal to "False" and yet no
monitor thread is started, because _start_log_monitor starts the thread
only outside a worker. -/
theorem log_monitor_counterexample :
    pyEq (PyValue.pyStr "False") (PyValue.pyStr "False") = true ∧
    logMonitorStarted true (PyValue.pyStr "False") = false := by
  decide

/-- Claim C10 (amended): the remote log monitor is started iff the
configured disable_log_monitoring value compares equal, in the Python
sense, to the string "False" and the handler is not itself running inside
a lithops worker; in particular a boolean value — the default False as
well as True — never starts the monitor. -/
theorem log_monitor_spec (w : Bool) (v : PyValue) :
    (logMonitorStarted w v = true ↔
      v = PyValue.pyStr "False" ∧ w = false) ∧
    ∀ b : Bool, logMonitorStarted w (PyValue.pyBool b) = false := by
  constructor
  · cases v with
    | pyBool b =>
      simp [logMonitorStarted, singleInvokeCallsLogMonitor, pyEq]
    | pyStr str =>
      cases w <;>
        simp [logMonitorStarted, singleInvokeCallsLogMonitor, pyEq]
  · intro b
    cases w <;> rfl

end LithopsStandalone
